import Mathlib

/-!
Shallow embedding of the chat application in `src/app.py` (the rain-chat
repository).  The application models live inline in `app.py` (`User`, `Room`,
`Message`); request handlers (`register`, `login`, `room`) and the Socket.IO
handler `handle_message` are translated as pure functions over an explicit
store state.  `datetime` values become `Nat`; the database session becomes the
`ChatState` record threaded through each handler.
-/

/-- `User` model of `app.py`: `username`, `email`, plaintext `password` column,
`full_name`, admin flag and moderation state (`banned`, `muted_until`).
The `email` column is declared `unique=True, nullable=False`, so every stored
row carries an email and no two rows share one; the field is therefore a plain
`String` here, and the fixture stores keep emails distinct. -/
structure User where
  id : Nat
  username : String
  email : String
  password : String
  full_name : String
  is_admin : Bool
  banned : Bool
  muted_until : Option Nat
deriving Repr, DecidableEq

/-- `Room` model of `app.py`: unique `name` and a `private` visibility flag
(spelled `is_private` here because `private` is a Lean keyword). -/
structure Room where
  id : Nat
  name : String
  is_private : Bool
deriving Repr, DecidableEq

/-- `Message` model of `app.py`: room and author references, text, optional
media reference and a creation timestamp. -/
structure Message where
  id : Nat
  room_id : Nat
  user_id : Nat
  text : String
  media : Option String
  created_at : Nat
deriving Repr, DecidableEq

/-- The persistent store plus the loaded profanity word list
(`profanity.load_censor_words()` at module import). -/
structure ChatState where
  users : List User
  rooms : List Room
  messages : List Message
  censorWords : List String
deriving Repr, DecidableEq

/-- Truthiness of `data.get('media')` in Python: absent or empty string is
falsy. -/
def truthyMedia : Option String → Bool
  | none => false
  | some s => !(s == "")

/-- `current_user.muted_until and current_user.muted_until > datetime.utcnow()`:
the mute is active exactly when the stored expiry is strictly after now. -/
def mutedActive (u : User) (now : Nat) : Bool :=
  match u.muted_until with
  | none => false
  | some t => decide (now < t)

/-- Python's `str.strip()`: drop leading and trailing whitespace characters.
(Implemented structurally over the character list so that it evaluates by
kernel reduction.) -/
def stripText (s : String) : String :=
  String.mk (((s.data.dropWhile Char.isWhitespace).reverse.dropWhile
    Char.isWhitespace).reverse)

/-- Split a character list on single spaces, keeping empty chunks, as
`text.split(' ')` does. -/
def splitWordsAux : List Char → List Char → List (List Char)
  | [], acc => [acc.reverse]
  | c :: cs, acc =>
    if c = ' ' then acc.reverse :: splitWordsAux cs []
    else splitWordsAux cs (c :: acc)

/-- Rejoin space-separated chunks. -/
def joinWords : List (List Char) → List Char
  | [] => []
  | [w] => w
  | w :: ws => w ++ ' ' :: joinWords ws

/-- One word of `better_profanity.profanity.censor`: a word on the loaded
censor list (compared case-insensitively) is replaced by four censor
characters, any other word is left verbatim. -/
def censorWord (ws : List String) (w : List Char) : List Char :=
  if ws.contains (String.mk (w.map Char.toLower)) then
    ['*', '*', '*', '*']
  else w

/-- `profanity.censor(text)`: mask every space-separated word that is on the
loaded censor list; all other characters pass through unchanged. -/
def censor (ws : List String) (s : String) : String :=
  String.mk (joinWords ((splitWordsAux s.data []).map (censorWord ws)))

/-- `Room.query.filter_by(name=room_name).first()` where `room_name` is
`data.get('room')`. -/
def findRoom (rooms : List Room) : Option String → Option Room
  | none => none
  | some n => rooms.find? (fun r => r.name == n)

/-- Payload of a `send_message` Socket.IO event: `data.get('text')`,
`data.get('room')`, `data.get('media')`. -/
structure MsgData where
  text : Option String
  room : Option String
  media : Option String
deriving Repr, DecidableEq

/-- Outcome of `handle_message`: a bare `return` with no emit, an
`emit('error', ...)` with its message string, or an accepted message that is
persisted and broadcast as `new_message`. -/
inductive SendResult where
  | silentIgnore : SendResult
  | errorMsg : String → SendResult
  | newMessage : Message → SendResult
deriving Repr, DecidableEq

/-- The `send_message` handler of `app.py`, step for step:
trim the text; silently return on empty text with no media; reject anonymous
senders; reject banned senders; reject senders whose mute is still active;
censor profanity; look up the room (error if missing); otherwise persist the
message and broadcast it. -/
def handle_message (st : ChatState) (sender : Option User) (now : Nat)
    (d : MsgData) : SendResult × ChatState :=
  let text := stripText (d.text.getD "")
  if text = "" ∧ truthyMedia d.media = false then
    (SendResult.silentIgnore, st)
  else
    match sender with
    | none => (SendResult.errorMsg "Authentication required.", st)
    | some u =>
      if u.banned then (SendResult.errorMsg "You are banned.", st)
      else if mutedActive u now then (SendResult.errorMsg "You are muted.", st)
      else
        let text := censor st.censorWords text
        match findRoom st.rooms d.room with
        | none => (SendResult.errorMsg "Room not found.", st)
        | some r =>
          let msg : Message :=
            { id := st.messages.length + 1, room_id := r.id, user_id := u.id,
              text := text, media := d.media, created_at := now }
          (SendResult.newMessage msg,
           { st with messages := st.messages ++ [msg] })

/-- Outcome of the `login` view: flash of invalid credentials, flash of the
banned notice, or `login_user` establishing a session for the given user id. -/
inductive LoginResult where
  | invalidCreds : LoginResult
  | bannedNotice : LoginResult
  | loggedIn : Nat → LoginResult
deriving Repr, DecidableEq

/-- The `login` view of `app.py` on a POST: look the user up by username,
compare the submitted password with the stored `password` column by plain
string equality, then check the banned flag, and only then create a session. -/
def login (users : List User) (username pw : String) : LoginResult :=
  match users.find? (fun u => u.username == username) with
  | none => LoginResult.invalidCreds
  | some u =>
    if u.password ≠ pw then LoginResult.invalidCreds
    else if u.banned then LoginResult.bannedNotice
    else LoginResult.loggedIn u.id

/-- A submitted registration form.  `forms.py` puts an email field on the
registration form; the `register` handler of `app.py` never reads it. -/
structure RegAttempt where
  username : String
  password : String
  name : Option String
  email : Option String
deriving Repr, DecidableEq

/-- Outcome of the `register` view: the duplicate-username flash, or the
uncaught server fault of the fresh-username path (see `register`). -/
inductive RegisterResult where
  | conflict : RegisterResult
  | typeErrorFault : RegisterResult
deriving Repr, DecidableEq

/-- The `register` view of `app.py` on a POST: strip the username, and reject
with the Conflict flash when a user with that username exists.  On a fresh
username the handler executes `User(username=username, password=password,
name=name)` — but `name` is not a column of the `User` model declared in
`app.py` (the column is `full_name`), so the declarative constructor raises
`TypeError` before any row is built; the uncaught exception is a server
fault and nothing is inserted.  (Even with that call repaired, the insert
could not commit: the `email` column is `unique=True, nullable=False` and the
handler never sets it.)  No email check is performed on any path. -/
def register (st : ChatState) (a : RegAttempt) : RegisterResult × ChatState :=
  let username := stripText a.username
  if (st.users.find? (fun u => u.username == username)).isSome then
    (RegisterResult.conflict, st)
  else
    (RegisterResult.typeErrorFault, st)

/-- Ordering of messages by creation time, the `order_by(created_at.asc())`
of the room view. -/
def createdLe (m₁ m₂ : Message) : Prop := m₁.created_at ≤ m₂.created_at

instance : DecidableRel createdLe := fun m₁ m₂ => Nat.decLe m₁.created_at m₂.created_at

instance : IsTotal Message createdLe := ⟨fun a b => Nat.le_total a.created_at b.created_at⟩

instance : IsTrans Message createdLe := ⟨fun _ _ _ h₁ h₂ => Nat.le_trans h₁ h₂⟩

/-- `Message.query.filter_by(room_id=room.id).order_by(Message.created_at.asc()).limit(200).all()`. -/
def roomMessages (msgs : List Message) (rid : Nat) : List Message :=
  ((msgs.filter (fun m => m.room_id == rid)).insertionSort createdLe).take 200

/-- Outcome of the `room` view: 404, the private-room redirect to `/chat`,
or the rendered page carrying the selected messages. -/
inductive RoomViewResult where
  | notFound : RoomViewResult
  | redirectChat : RoomViewResult
  | page : Room → List Message → RoomViewResult
deriving Repr, DecidableEq

/-- The `room` view of `app.py`: `first_or_404` on the name, the private-room
gate for non-admins, then the capped ascending message scan. -/
def room (st : ChatState) (u : User) (room_name : String) : RoomViewResult :=
  match st.rooms.find? (fun r => r.name == room_name) with
  | none => RoomViewResult.notFound
  | some r =>
    if r.is_private && !u.is_admin then RoomViewResult.redirectChat
    else RoomViewResult.page r (roomMessages st.messages r.id)

/-! Concrete fixtures used by witnesses and counterexamples. -/

/-- An ordinary user whose stored `password` column holds the plaintext
credential, exactly as `register` stores it. -/
def alice : User :=
  { id := 1, username := "alice", email := "a@x.com", password := "hunter2",
    full_name := "Alice", is_admin := false, banned := false, muted_until := none }

/-- A banned user. -/
def bob : User :=
  { alice with id := 2, username := "bob", email := "b@x.com", banned := true }

/-- A user muted until time 100. -/
def carol : User := { alice with id := 3, username := "carol", email := "c@x.com", muted_until := some 100 }

/-- A store with three users, a public and a private room, and one configured
profanity term. -/
def st0 : ChatState :=
  { users := [alice, bob, carol],
    rooms := [{ id := 1, name := "general", is_private := false },
              { id := 2, name := "secret", is_private := true }],
    messages := [],
    censorWords := ["badword1"] }

/-- The row `handle_message` persists on its success path. -/
def mkMsg (st : ChatState) (u : User) (now : Nat) (d : MsgData) (r : Room) : Message :=
  { id := st.messages.length + 1, room_id := r.id, user_id := u.id,
    text := censor st.censorWords (stripText (d.text.getD "")), media := d.media,
    created_at := now }

/-- Helper: the success path of `handle_message` — non-empty content,
authenticated, not banned, mute inactive, room found — persists exactly the
censored row and broadcasts it. -/
theorem handle_message_success (st : ChatState) (u : User) (now : Nat)
    (d : MsgData) (r : Room)
    (hne : ¬(stripText (d.text.getD "") = "" ∧ truthyMedia d.media = false))
    (hban : u.banned = false) (hmut : mutedActive u now = false)
    (hroom : findRoom st.rooms d.room = some r) :
    handle_message st (some u) now d =
      (SendResult.newMessage (mkMsg st u now d r),
       { st with messages := st.messages ++ [mkMsg st u now d r] }) := by
  simp [handle_message, hne, hban, hmut, hroom, mkMsg]

/-! Claim theorems. -/

/-- C1: the `login` view of `app.py` accepts a submitted password by plain
string equality against the stored `password` column, which `register` filled
with the plaintext credential.  Here the stored credential is the plaintext
"hunter2" itself and submitting that plaintext logs the user in, contradicting
the requirement that only a hash verification may accept; `models.py` has the
intended `check_password` based on `check_password_hash`, and `app.py` itself
carries NOTE comments saying to hash in production. -/
theorem login_accepts_plaintext :
    alice.password = "hunter2" ∧
    login [alice] "alice" "hunter2" = LoginResult.loggedIn 1 := by
  constructor
  · rfl
  · rfl

/-- C2 counterexample: an authenticated, unbanned, unmuted user posts
"hello <script>" to an existing room; the persisted and broadcast text is
"hello <script>" verbatim — no markup-sanitization step strips the script
tag. -/
theorem script_tags_not_stripped :
    (handle_message st0 (some alice) 0
        { text := some "hello <script>", room := some "general", media := none }).1 =
      SendResult.newMessage
        { id := 1, room_id := 1, user_id := 1, text := "hello <script>",
          media := none, created_at := 0 } := by
  rfl

/-- C2 amended: on the accepted path the only transformation applied to the
posted text is `profanity.censor` of the trimmed input — configured profanity
terms are masked, but there is no markup-sanitization step, so unsafe markup
such as script tags passes through to persistence and broadcast verbatim. -/
theorem posted_text_is_censor_of_input (st : ChatState) (u : User) (now : Nat)
    (d : MsgData) (r : Room)
    (hne : ¬(stripText (d.text.getD "") = "" ∧ truthyMedia d.media = false))
    (hban : u.banned = false) (hmut : mutedActive u now = false)
    (hroom : findRoom st.rooms d.room = some r) :
    ∃ msg, handle_message st (some u) now d =
        (SendResult.newMessage msg, { st with messages := st.messages ++ [msg] }) ∧
      msg.text = censor st.censorWords (stripText (d.text.getD "")) :=
  ⟨mkMsg st u now d r, handle_message_success st u now d r hne hban hmut hroom, rfl⟩

/-- C2 witness: posting "hello badword1" with the censor list ["badword1"]
persists "hello ****" — the configured profanity term is masked while the rest
of the text is untouched. -/
theorem posted_text_is_censor_of_input_witness :
    ∃ msg, handle_message st0 (some alice) 0
        { text := some "hello badword1", room := some "general", media := none } =
        (SendResult.newMessage msg, { st0 with messages := st0.messages ++ [msg] }) ∧
      msg.text = censor st0.censorWords
        (stripText (((some "hello badword1") : Option String).getD "")) :=
  posted_text_is_censor_of_input st0 alice 0
    { text := some "hello badword1", room := some "general", media := none }
    { id := 1, name := "general", is_private := false }
    (by decide) rfl rfl (by decide)

/-- C3 counterexample: a banned user's `send_message` with empty text and no
media is silently dropped by the empty-content check, which runs before the
ban check; no ModerationDenied error event is emitted. -/
theorem banned_empty_message_not_denied :
    bob.banned = true ∧
    handle_message st0 (some bob) 0
        { text := some "", room := some "general", media := none } =
      (SendResult.silentIgnore, st0) := by
  constructor
  · rfl
  · rfl

/-- C3 amended: a banned sender never gets anything persisted, and whenever
the message has non-empty trimmed text or a media attachment the handler
returns the ModerationDenied error "You are banned."; a message that is empty
with no media is instead silently dropped before the ban check, with no error
event. -/
theorem banned_sender_denied (st : ChatState) (u : User) (now : Nat)
    (d : MsgData) (hban : u.banned = true) :
    (handle_message st (some u) now d).2 = st ∧
      (¬(stripText (d.text.getD "") = "" ∧ truthyMedia d.media = false) →
        (handle_message st (some u) now d).1 = SendResult.errorMsg "You are banned.") := by
  constructor
  · by_cases hne : stripText (d.text.getD "") = "" ∧ truthyMedia d.media = false
    · simp [handle_message, hne]
    · simp [handle_message, hne, hban]
  · intro hne
    simp [handle_message, hne, hban]

/-- C3 witness: the banned user bob posting non-empty text "hi" leaves the
store unchanged and receives the "You are banned." error. -/
theorem banned_sender_denied_witness :
    (handle_message st0 (some bob) 0
        { text := some "hi", room := some "general", media := none }).2 = st0 ∧
      (¬(stripText (((some "hi") : Option String).getD "") = "" ∧
          truthyMedia (none : Option String) = false) →
        (handle_message st0 (some bob) 0
            { text := some "hi", room := some "general", media := none }).1 =
          SendResult.errorMsg "You are banned.") :=
  banned_sender_denied st0 bob 0
    { text := some "hi", room := some "general", media := none } rfl

/-- C4: for an otherwise-valid post (authenticated, not banned, non-empty
content, room exists) by a sender with a `muted_until` timestamp, the handler
returns the ModerationDenied error "You are muted." when the current time is
strictly before `muted_until`, and once the current time has reached or passed
`muted_until` the post succeeds and is persisted; the two cases are exhaustive
and produce distinct results, so denial happens exactly on strict
precedence. -/
theorem muted_sender_denied_iff_before_expiry (st : ChatState) (u : User)
    (now t : Nat) (d : MsgData) (r : Room)
    (hne : ¬(stripText (d.text.getD "") = "" ∧ truthyMedia d.media = false))
    (hban : u.banned = false) (hmut : u.muted_until = some t)
    (hroom : findRoom st.rooms d.room = some r) :
    (now < t → handle_message st (some u) now d =
        (SendResult.errorMsg "You are muted.", st)) ∧
      (t ≤ now → handle_message st (some u) now d =
        (SendResult.newMessage (mkMsg st u now d r),
         { st with messages := st.messages ++ [mkMsg st u now d r] })) := by
  constructor
  · intro hlt
    have hma : mutedActive u now = true := by simp [mutedActive, hmut, hlt]
    simp [handle_message, hne, hban, hma]
  · intro hle
    have hma : mutedActive u now = false := by
      simp [mutedActive, hmut]
      omega
    exact handle_message_success st u now d r hne hban hma hroom

/-- C4 witness: carol is muted until time 100; her post at time 50 is denied
with "You are muted.". -/
theorem muted_sender_denied_iff_before_expiry_witness :
    handle_message st0 (some carol) 50
        { text := some "hi", room := some "general", media := none } =
      (SendResult.errorMsg "You are muted.", st0) :=
  (muted_sender_denied_iff_before_expiry st0 carol 50 100
    { text := some "hi", room := some "general", media := none }
    { id := 1, name := "general", is_private := false }
    (by decide) rfl rfl (by decide)).1 (by decide)

/-- A registration attempt with a fresh username whose email duplicates the
email of a stored user. -/
def dupEmailAttempt : RegAttempt :=
  { username := "newbie", password := "p", name := none, email := some "a@x.com" }

/-- A registration attempt whose username strips to the existing "alice". -/
def dupUsernameAttempt : RegAttempt :=
  { username := " alice ", password := "p", name := none, email := none }

/-- C5 counterexample: the store holds the user alice with email "a@x.com";
a registration attempt carrying that same email but a fresh username does not
return Conflict — the handler never reads the email, takes the fresh-username
path and dies with the `TypeError` server fault of `User(name=...)`, so the
outcome the claim requires (a Conflict) is not produced at this input. -/
theorem register_duplicate_email_faults :
    (∃ u, u ∈ st0.users ∧ u.email = "a@x.com") ∧
      dupEmailAttempt.email = some "a@x.com" ∧
      register st0 dupEmailAttempt = (RegisterResult.typeErrorFault, st0) := by
  refine ⟨⟨alice, by decide, rfl⟩, rfl, rfl⟩

/-- C5 amended: a registration attempt whose stripped username is already
present returns Conflict with the user store unchanged; no attempt ever
creates a row (the fresh-username path raises `TypeError` before any insert,
and the never-set NOT NULL email column would block a commit anyway), and the
submitted email is never checked, so an attempt whose email is already present
but whose handle is fresh produces the server fault, not a Conflict. -/
theorem register_handle_conflict_no_insert (st : ChatState) (a : RegAttempt) :
    (register st a).2 = st ∧
      ((st.users.find? (fun u => u.username == stripText a.username)).isSome = true →
        register st a = (RegisterResult.conflict, st)) := by
  constructor
  · by_cases h : (st.users.find? (fun u => u.username == stripText a.username)).isSome = true
    · simp [register, h]
    · simp [register, h]
  · intro h
    simp [register, h]

/-- C5 witness: registering " alice " (strips to the existing username
"alice") hits the duplicate-handle hypothesis and returns Conflict with the
store unchanged. -/
theorem register_handle_conflict_no_insert_witness :
    (st0.users.find? (fun u =>
        u.username == stripText dupUsernameAttempt.username)).isSome = true ∧
      register st0 dupUsernameAttempt = (RegisterResult.conflict, st0) :=
  ⟨by decide,
   (register_handle_conflict_no_insert st0 dupUsernameAttempt).2 (by decide)⟩

/-- C6 counterexample: an authenticated user's message of whitespace-only text
with no media is dropped by the bare `return` — the result is the silent
ignore, not an error event, so no user-visible error signal is produced. -/
theorem empty_message_no_error_signal :
    handle_message st0 (some alice) 0
        { text := some "   ", room := some "general", media := none } =
      (SendResult.silentIgnore, st0) := by
  rfl

/-- C6 amended: every send whose trimmed text is empty and whose media is
absent or empty is rejected before any persistence — the store is returned
unchanged — but silently: the handler executes a bare `return` without
emitting any error event. -/
theorem empty_message_silently_dropped (st : ChatState) (sender : Option User)
    (now : Nat) (d : MsgData)
    (htext : stripText (d.text.getD "") = "")
    (hmedia : truthyMedia d.media = false) :
    handle_message st sender now d = (SendResult.silentIgnore, st) := by
  simp [handle_message, htext, hmedia]

/-- C6 witness: the whitespace-only message with no media evaluates to the
silent drop with the store unchanged. -/
theorem empty_message_silently_dropped_witness :
    handle_message st0 (some alice) 0
        { text := some "   ", room := some "general", media := none } =
      (SendResult.silentIgnore, st0) ∧ (0 : Nat) < 1 :=
  ⟨empty_message_silently_dropped st0 (some alice) 0
    { text := some "   ", room := some "general", media := none }
    (by decide) rfl, by decide⟩

/-- C7: the `room` view on an existing private room, requested by a non-admin
user, takes the private-room branch: it flashes the denial and redirects to
`/chat`, returning a result that by construction carries no messages — the
message query is never reached. -/
theorem private_room_redirects_non_admin (st : ChatState) (u : User)
    (room_name : String) (r : Room)
    (hfind : st.rooms.find? (fun x => x.name == room_name) = some r)
    (hpriv : r.is_private = true) (hadm : u.is_admin = false) :
    room st u room_name = RoomViewResult.redirectChat := by
  simp [room, hfind, hpriv, hadm]

/-- C7 witness: the non-admin carol requesting the private room "secret" is
redirected. -/
theorem private_room_redirects_non_admin_witness :
    room st0 carol "secret" = RoomViewResult.redirectChat :=
  private_room_redirects_non_admin st0 carol "secret"
    { id := 2, name := "secret", is_private := true } (by decide) rfl rfl

/-- Helper: every message selected by the room scan belongs to the requested
room. -/
theorem roomMessages_room_id (msgs : List Message) (rid : Nat) :
    ∀ m ∈ roomMessages msgs rid, m.room_id = rid := by
  intro m hm
  have h₁ : m ∈ (msgs.filter (fun x => x.room_id == rid)).insertionSort createdLe :=
    List.mem_of_mem_take hm
  have h₂ : m ∈ msgs.filter (fun x => x.room_id == rid) :=
    (List.mem_insertionSort createdLe).mp h₁
  have h₃ := List.mem_filter.mp h₂
  simpa using h₃.2

/-- Helper: the room scan is sorted ascending by creation time. -/
theorem roomMessages_sorted (msgs : List Message) (rid : Nat) :
    (roomMessages msgs rid).Sorted createdLe := by
  have h := List.sorted_insertionSort createdLe (msgs.filter (fun x => x.room_id == rid))
  exact List.Pairwise.sublist (List.take_sublist _ _) h

/-- C8: whenever the `room` view renders a page, the message list it carries
contains only messages of that room, is ordered ascending by creation time,
and has at most 200 entries — the filter, ascending order-by and limit 200 of
the scan. -/
theorem room_view_messages_scoped_sorted_capped (st : ChatState) (u : User)
    (room_name : String) (r : Room) (msgs : List Message)
    (h : room st u room_name = RoomViewResult.page r msgs) :
    (∀ m ∈ msgs, m.room_id = r.id) ∧ msgs.Sorted createdLe ∧ msgs.length ≤ 200 := by
  have hmsgs : msgs = roomMessages st.messages r.id := by
    unfold room at h
    split at h
    · cases h
    · split at h
      · cases h
      · injection h with h₁ h₂
        rw [← h₁, ← h₂]
  subst hmsgs
  exact ⟨roomMessages_room_id _ _, roomMessages_sorted _ _, List.length_take_le _ _⟩

/-- Message fixtures for the room-scan witness: two messages in room 1 stored
out of time order, one in room 2. -/
def m1 : Message :=
  { id := 1, room_id := 1, user_id := 1, text := "a", media := none, created_at := 5 }

/-- Second fixture message (earlier creation time, stored later). -/
def m2 : Message :=
  { id := 2, room_id := 1, user_id := 2, text := "b", media := none, created_at := 3 }

/-- Third fixture message, in the other room. -/
def m3 : Message :=
  { id := 3, room_id := 2, user_id := 1, text := "c", media := none, created_at := 4 }

/-- The fixture store with messages. -/
def st1 : ChatState := { st0 with messages := [m1, m2, m3] }

/-- C8 witness: the "general" page for alice carries exactly the two room-1
messages, reordered ascending by creation time, and the properties hold of
that list. -/
theorem room_view_messages_scoped_sorted_capped_witness :
    (∀ m ∈ [m2, m1], m.room_id = 1) ∧
      ([m2, m1] : List Message).Sorted createdLe ∧
      ([m2, m1] : List Message).length ≤ 200 :=
  room_view_messages_scoped_sorted_capped st1 alice "general"
    { id := 1, name := "general", is_private := false } [m2, m1] (by decide)

/-- C9: a banned user's login is rejected with the banned notice even when the
submitted password matches the stored credential: the result is the flash of
"You are banned" with a redirect back to `/login`, and `login_user` is never
reached, so no session is created. -/
theorem banned_user_login_denied (users : List User) (username pw : String)
    (u : User)
    (hfind : users.find? (fun x => x.username == username) = some u)
    (hpw : u.password = pw) (hban : u.banned = true) :
    login users username pw = LoginResult.bannedNotice := by
  simp [login, hfind, hpw, hban]

/-- C9 witness: bob is banned and his stored password is "hunter2"; logging in
as bob with "hunter2" yields the banned notice, not a session. -/
theorem banned_user_login_denied_witness :
    login st0.users "bob" "hunter2" = LoginResult.bannedNotice :=
  banned_user_login_denied st0.users "bob" "hunter2" bob (by decide) rfl rfl

/-- C10: an authenticated, non-banned, non-muted sender posting non-empty
content to a room name that is not in the room registry receives the
"Room not found." error and the store is returned unchanged — nothing is
persisted. -/
theorem unknown_room_not_found (st : ChatState) (u : User) (now : Nat)
    (d : MsgData)
    (hne : ¬(stripText (d.text.getD "") = "" ∧ truthyMedia d.media = false))
    (hban : u.banned = false) (hmut : mutedActive u now = false)
    (hroom : findRoom st.rooms d.room = none) :
    handle_message st (some u) now d = (SendResult.errorMsg "Room not found.", st) := by
  simp [handle_message, hne, hban, hmut, hroom]

/-- C10 witness: alice posting "hi" to the unknown room "nowhere" gets the
NotFound error and the store is unchanged. -/
theorem unknown_room_not_found_witness :
    handle_message st0 (some alice) 0
        { text := some "hi", room := some "nowhere", media := none } =
      (SendResult.errorMsg "Room not found.", st0) :=
  unknown_room_not_found st0 alice 0
    { text := some "hi", room := some "nowhere", media := none }
    (by decide) rfl rfl (by decide)
